import Mathlib

/-!
Shallow embedding of `src/homework.py`, a fitness-tracker module that computes
distance, mean speed and calories for three workout kinds (Running,
SportsWalking, Swimming), formats a summary line, and dispatches raw packages
to workout records.

Modelling conventions:
* Python numbers (ints and floats of the formulas) are modelled as `ℚ`,
  matching the exact decimal arithmetic of the constants (0.65, 1.38, …).
* Python operations that can raise are modelled with `Option` / `Except`:
  `x / 0` and `x // 0` raise `ZeroDivisionError`, calling a method on `None`
  raises `AttributeError`, so the corresponding functions return `none` /
  `.error` there.
* Python's dynamically dispatched class attribute `self.LEN_STEP` is modelled
  by a `step` parameter (`…_withStep`); the actual methods instantiate it with
  the variant's class constant `Training.LEN_STEP`.
* Python's float floor division `a // b` (truncating toward negative
  infinity) is modelled by `floorDivQ`.
* `print` output is modelled as returned strings.
-/

namespace FitnessTracker

/-- Class constant `Training.hour_min_change = 60`. -/
def hour_min_change : ℚ := 60

/-- Class constant `Training.M_IN_KM = 1000`. -/
def M_IN_KM : ℚ := 1000

/-- Class constant `Training.LEN_STEP = 0.65` (base class value, used by
Running and SportsWalking). -/
def base_LEN_STEP : ℚ := 0.65

/-- Class constant `Running.running_calories_multiplier = 18`. -/
def running_calories_multiplier : ℚ := 18

/-- Class constant `Running.running_calories_diminution = 20`. -/
def running_calories_diminution : ℚ := 20

/-- Class constant `SportsWalking.walking_weight_multiplier = 0.035`. -/
def walking_weight_multiplier : ℚ := 0.035

/-- Class constant `SportsWalking.walking_second_multiplier = 0.029`. -/
def walking_second_multiplier : ℚ := 0.029

/-- Class constant `Swimming.LEN_STEP = 1.38` (overrides the base value). -/
def swimming_LEN_STEP : ℚ := 1.38

/-- Class constant `Swimming.coeff_calorie_1 = 1.1`. -/
def coeff_calorie_1 : ℚ := 1.1

/-- Class constant `Swimming.coeff_calorie_2 = 2`. -/
def coeff_calorie_2 : ℚ := 2

/-- Python's float floor division `a // b`: the floor (toward negative
infinity) of the true quotient, returned as a float. The `b = 0` case
(`ZeroDivisionError`) is guarded by the caller. -/
def floorDivQ (a b : ℚ) : ℚ := (⌊a / b⌋ : ℤ)

/-- One decimal digit character: `digitChar d` is the character for `d % 10`. -/
def digitChar (d : ℕ) : Char := Char.ofNat (48 + d % 10)

/-- The three decimal digits of `m % 1000`, zero padded to width 3 (hundreds,
tens, units). Helper for the `:.3f` fractional part. -/
def pad3 (m : ℕ) : String := String.mk [digitChar (m / 100), digitChar (m / 10), digitChar m]

/-- Python's fixed-point formatting `:.3f`: round to the nearest thousandth
and print with exactly three digits after the decimal point. (Python rounds
the underlying binary float half-to-even; the spec treats tie-breaking as not
behaviorally significant, and no sample input hits a tie.) -/
def formatFixed3 (q : ℚ) : String :=
  let n : ℤ := round (q * 1000)
  let sign : String := if n < 0 then "-" else ""
  sign ++ toString (n.natAbs / 1000) ++ "." ++ pad3 (n.natAbs % 1000)

/-- Number of characters strictly after the last `.` of a string (the count
of printed decimal digits when the string renders a fixed-point number). -/
def decimalsAfterPoint (s : String) : ℕ :=
  (s.data.reverse.takeWhile (fun c => c != '.')).length

/-- Dataclass field default `InfoMessage.training_type_text`. -/
def training_type_text : String := "Тип тренировки"

/-- Dataclass field default `InfoMessage.duration_text`. -/
def duration_text : String := "Длительность"

/-- Dataclass field default `InfoMessage.distance_text`. -/
def distance_text : String := "Дистанция"

/-- Dataclass field default `InfoMessage.mean_speed_text`. -/
def mean_speed_text : String := "Ср. скорость"

/-- Dataclass field default `InfoMessage.spent_calories_text`. -/
def spent_calories_text : String := "Потрачено ккал"

/-- Dataclass field default `InfoMessage.hour_text`. -/
def hour_text : String := "ч."

/-- Dataclass field default `InfoMessage.km_text`. -/
def km_text : String := "км"

/-- Dataclass field default `InfoMessage.km_hour_text`. -/
def km_hour_text : String := "км/ч"

/-- The dataclass `InfoMessage` (its data fields; the text fields always hold
their defaults, modelled as the constants above). -/
structure InfoMessage where
  training_type : String
  duration : ℚ
  distance : ℚ
  speed : ℚ
  calories : ℚ
deriving DecidableEq

/-- `InfoMessage.get_message`: the f-string summary line. -/
def InfoMessage.get_message (m : InfoMessage) : String :=
  training_type_text ++ ": " ++ m.training_type ++ "; " ++
  duration_text ++ ": " ++ formatFixed3 m.duration ++ " " ++ hour_text ++ "; " ++
  distance_text ++ ": " ++ formatFixed3 m.distance ++ " " ++ km_text ++ "; " ++
  mean_speed_text ++ ": " ++ formatFixed3 m.speed ++ " " ++ km_hour_text ++ "; " ++
  spent_calories_text ++ ": " ++ formatFixed3 m.calories ++ "."

/-- The `Training` class hierarchy as a sum type: `Running(action, duration,
weight)`, `SportsWalking(action, duration, weight, height)`,
`Swimming(action, duration, weight, length_pool, count_pool)`. -/
inductive Training where
  | running (action duration weight : ℚ)
  | sportsWalking (action duration weight height : ℚ)
  | swimming (action duration weight length_pool count_pool : ℚ)
deriving DecidableEq

/-- Field `self.action`. -/
def Training.action : Training → ℚ
  | .running a _ _ => a
  | .sportsWalking a _ _ _ => a
  | .swimming a _ _ _ _ => a

/-- Field `self.duration`. -/
def Training.duration : Training → ℚ
  | .running _ d _ => d
  | .sportsWalking _ d _ _ => d
  | .swimming _ d _ _ _ => d

/-- Field `self.weight`. -/
def Training.weight : Training → ℚ
  | .running _ _ w => w
  | .sportsWalking _ _ w _ => w
  | .swimming _ _ w _ _ => w

/-- `Training.__str__`: the class name of the variant. -/
def Training.str : Training → String
  | .running _ _ _ => "Running"
  | .sportsWalking _ _ _ _ => "SportsWalking"
  | .swimming _ _ _ _ _ => "Swimming"

/-- The value of the dynamically dispatched class attribute `self.LEN_STEP`:
`0.65` from the base class for Running and SportsWalking, overridden to
`1.38` in Swimming. -/
def Training.LEN_STEP : Training → ℚ
  | .running _ _ _ => base_LEN_STEP
  | .sportsWalking _ _ _ _ => base_LEN_STEP
  | .swimming _ _ _ _ _ => swimming_LEN_STEP

/-- `Training.get_distance` with the class attribute `self.LEN_STEP` made an
explicit parameter: `self.action * self.LEN_STEP / self.M_IN_KM`. -/
def Training.get_distance_withStep (step : ℚ) (t : Training) : ℚ :=
  t.action * step / M_IN_KM

/-- `Training.get_distance` (inherited by every variant). -/
def Training.get_distance (t : Training) : ℚ :=
  t.get_distance_withStep t.LEN_STEP

/-- `get_mean_speed` with `self.LEN_STEP` made an explicit parameter.
Base class: `self.get_distance() / self.duration`; Swimming overrides it to
`(self.length_pool * self.count_pool) / self.M_IN_KM / self.duration`.
Returns `none` when the division raises `ZeroDivisionError`. -/
def Training.get_mean_speed_withStep (step : ℚ) : Training → Option ℚ
  | t@(.running _ d _) =>
      if d = 0 then none else some (t.get_distance_withStep step / d)
  | t@(.sportsWalking _ d _ _) =>
      if d = 0 then none else some (t.get_distance_withStep step / d)
  | .swimming _ d _ lp cp =>
      if d = 0 then none else some (lp * cp / M_IN_KM / d)

/-- `get_mean_speed`, dispatched per variant. -/
def Training.get_mean_speed (t : Training) : Option ℚ :=
  Training.get_mean_speed_withStep t.LEN_STEP t

/-- `get_spent_calories` with `self.LEN_STEP` made an explicit parameter.
Running: `((multiplier * speed - diminution) * weight / M_IN_KM) * (duration
* 60)`; SportsWalking: `(0.035 * weight + (speed ** 2 // height) * 0.029 *
weight) * (duration * 60)` where `//` is float floor division raising on
`height = 0`; Swimming: `(speed + 1.1) * 2 * weight`. Returns `none` when a
division raises `ZeroDivisionError`. -/
def Training.get_spent_calories_withStep (step : ℚ) : Training → Option ℚ
  | t@(.running _ d w) =>
      match Training.get_mean_speed_withStep step t with
      | none => none
      | some s =>
          some (((running_calories_multiplier * s - running_calories_diminution)
            * w / M_IN_KM) * (d * hour_min_change))
  | t@(.sportsWalking _ d w h) =>
      match Training.get_mean_speed_withStep step t with
      | none => none
      | some s =>
          if h = 0 then none else
          some ((walking_weight_multiplier * w
            + floorDivQ (s ^ 2) h * walking_second_multiplier * w)
            * (d * hour_min_change))
  | t@(.swimming _ _ w _ _) =>
      match Training.get_mean_speed_withStep step t with
      | none => none
      | some s => some ((s + coeff_calorie_1) * coeff_calorie_2 * w)

/-- `get_spent_calories`, dispatched per variant. -/
def Training.get_spent_calories (t : Training) : Option ℚ :=
  Training.get_spent_calories_withStep t.LEN_STEP t

/-- `Training.show_training_info` with `self.LEN_STEP` made an explicit
parameter: packages the class name, duration, distance, mean speed and
calories into an `InfoMessage`; `none` when a metric raises. -/
def Training.show_training_info_withStep (step : ℚ) (t : Training) : Option InfoMessage :=
  match Training.get_mean_speed_withStep step t,
        Training.get_spent_calories_withStep step t with
  | some s, some c =>
      some ⟨t.str, t.duration, t.get_distance_withStep step, s, c⟩
  | _, _ => none

/-- `Training.show_training_info`. -/
def Training.show_training_info (t : Training) : Option InfoMessage :=
  Training.show_training_info_withStep t.LEN_STEP t

/-- `read_package(workout_type, data)`: dict lookup of the code (KeyError →
prints `Unknown training type`, returns `None`), then positional construction
of the variant (TypeError on arity mismatch → prints `Unknown training data`,
returns `None`). First component: the returned record (`none` = Python
`None`); second component: the printed diagnostic, if any. -/
def read_package (workout_type : String) (data : List ℚ) : Option Training × Option String :=
  if workout_type = "SWM" then
    match data with
    | [a, d, w, lp, cp] => (some (.swimming a d w lp cp), none)
    | _ => (none, some "Unknown training data")
  else if workout_type = "RUN" then
    match data with
    | [a, d, w] => (some (.running a d w), none)
    | _ => (none, some "Unknown training data")
  else if workout_type = "WLK" then
    match data with
    | [a, d, w, h] => (some (.sportsWalking a d w h), none)
    | _ => (none, some "Unknown training data")
  else
    (none, some "Unknown training type")

/-- `main(training)`: calls `training.show_training_info()` and prints the
message. Passing Python `None` raises `AttributeError` (there is no guard);
a metric that divides by zero raises `ZeroDivisionError`. `.ok` carries the
printed line. -/
def main : Option Training → Except String String
  | none => .error "AttributeError"
  | some t =>
      match t.show_training_info with
      | none => .error "ZeroDivisionError"
      | some info => .ok info.get_message

/-- One iteration of the driver loop for a package entry: dispatch with
`read_package`, then unconditionally call `main` on the result. First
component: the dispatch diagnostic, if printed; second: what `main` does. -/
def process_entry (workout_type : String) (data : List ℚ) : Option String × Except String String :=
  let p := read_package workout_type data
  (p.2, main p.1)

end FitnessTracker

namespace FitnessTracker

/-- Every character produced by `digitChar` is a decimal digit, in particular
never the decimal point. -/
lemma digitChar_ne_dot (d : ℕ) : digitChar d ≠ '.' := by
  have h : d % 10 < 10 := Nat.mod_lt d (by norm_num)
  have hall : ∀ i : Fin 10, Char.ofNat (48 + i.1) ≠ '.' := by decide
  have := hall ⟨d % 10, h⟩
  simpa [digitChar, Nat.mod_mod] using this

/-- The summary line assembled by `InfoMessage.get_message` from the text
constants coincides with the rendered template of the specification. -/
lemma get_message_template (m : InfoMessage) : m.get_message =
    "Тип тренировки: " ++ m.training_type ++ "; Длительность: " ++ formatFixed3 m.duration
      ++ " ч.; Дистанция: " ++ formatFixed3 m.distance ++ " км; Ср. скорость: "
      ++ formatFixed3 m.speed ++ " км/ч; Потрачено ккал: " ++ formatFixed3 m.calories ++ "." := by
  have h1 : ("Тип тренировки: " : String) = "Тип тренировки" ++ ": " := by decide
  have h2 : ("; Длительность: " : String) = "; " ++ "Длительность" ++ ": " := by decide
  have h3 : (" ч.; Дистанция: " : String) = " " ++ "ч." ++ "; " ++ "Дистанция" ++ ": " := by decide
  have h4 : (" км; Ср. скорость: " : String) = " " ++ "км" ++ "; " ++ "Ср. скорость" ++ ": " := by decide
  have h5 : (" км/ч; Потрачено ккал: " : String) = " " ++ "км/ч" ++ "; " ++ "Потрачено ккал" ++ ": " := by decide
  rw [h1, h2, h3, h4, h5]
  simp [InfoMessage.get_message, training_type_text, duration_text, distance_text,
    mean_speed_text, spent_calories_text, hour_text, km_text, km_hour_text, String.append_assoc]

/-- Claim C1 (counterexample): for the driver sample input
`("RUN", [15000, 1, 75])` the Running record does NOT report spent calories
654.75 — the code computes `((18 * 9.75 - 20) * 75 / 1000) * 60 = 699.75`. -/
theorem claim_C1_counterexample :
    (Training.running 15000 1 75).get_spent_calories ≠ some (654.75 : ℚ) := by
  norm_num [Training.get_spent_calories, Training.get_spent_calories_withStep,
    Training.get_mean_speed_withStep, Training.get_distance_withStep,
    Training.LEN_STEP, Training.action, M_IN_KM, base_LEN_STEP,
    running_calories_multiplier, running_calories_diminution, hour_min_change]

/-- Claim C1 (amended): for the driver sample input `("RUN", [15000, 1, 75])`,
the dispatched Running record reports distance 9.75 km, mean speed 9.75 km/h,
and spent calories 699.75. -/
theorem claim_C1 :
    (read_package "RUN" [15000, 1, 75]).1 = some (.running 15000 1 75)
    ∧ (Training.running 15000 1 75).get_distance = 9.75
    ∧ (Training.running 15000 1 75).get_mean_speed = some 9.75
    ∧ (Training.running 15000 1 75).get_spent_calories = some 699.75 := by
  refine ⟨rfl, ?_, ?_, ?_⟩ <;>
    norm_num [Training.get_distance, Training.get_mean_speed, Training.get_spent_calories,
      Training.get_spent_calories_withStep, Training.get_mean_speed_withStep,
      Training.get_distance_withStep, Training.LEN_STEP, Training.action, M_IN_KM,
      base_LEN_STEP, running_calories_multiplier, running_calories_diminution, hour_min_change]

/-- Claim C2: for every Running record with duration > 0 and weight > 0,
`get_spent_calories` returns
`((18 * meanSpeed - 20) * weightKg / 1000) * (durationHours * 60)` with
`meanSpeed = (action * 0.65 / 1000) / durationHours`. -/
theorem claim_C2 (a d w : ℚ) (hd : 0 < d) (hw : 0 < w) :
    (Training.running a d w).get_spent_calories
      = some (((18 * ((a * 0.65 / 1000) / d) - 20) * w / 1000) * (d * 60)) := by
  have hd0 : d ≠ 0 := ne_of_gt hd
  simp [Training.get_spent_calories, Training.get_spent_calories_withStep,
    Training.get_mean_speed_withStep, Training.get_distance_withStep,
    Training.LEN_STEP, Training.action, M_IN_KM, base_LEN_STEP,
    running_calories_multiplier, running_calories_diminution, hour_min_change, hd0]

/-- Witness for claim C2 at the driver sample Running record. -/
theorem claim_C2_witness :
    (Training.running 15000 1 75).get_spent_calories = some 699.75 := by
  have h := claim_C2 15000 1 75 (by norm_num) (by norm_num)
  rw [h]; norm_num

/-- Claim C3: for every SportsWalking record (with nonzero duration and
height, the cases where the Python division does not raise),
`get_spent_calories` equals
`(0.035 * weight + floor(meanSpeed ^ 2 / height) * 0.029 * weight) *
(duration * 60)` where the divided term uses floor division (truncation
toward negative infinity); in particular `7 // 2 = 3` (not 3.5), and
`(-7) // 2 = -4` (floor, toward negative infinity). -/
theorem claim_C3 :
    (∀ a d w h : ℚ, d ≠ 0 → h ≠ 0 →
      (Training.sportsWalking a d w h).get_spent_calories
        = some ((0.035 * w + floorDivQ (((a * 0.65 / 1000) / d) ^ 2) h * 0.029 * w) * (d * 60)))
    ∧ floorDivQ 7 2 = 3 ∧ floorDivQ (-7) 2 = -4 := by
  refine ⟨?_, by norm_num [floorDivQ], by norm_num [floorDivQ]⟩
  intro a d w h hd hh
  simp [Training.get_spent_calories, Training.get_spent_calories_withStep,
    Training.get_mean_speed_withStep, Training.get_distance_withStep,
    Training.LEN_STEP, Training.action, M_IN_KM, base_LEN_STEP,
    walking_weight_multiplier, walking_second_multiplier, hour_min_change, hd, hh]

/-- Witness for claim C3 at the driver sample SportsWalking record: the
floored term is `floor(5.85 ^ 2 / 180) = 0`, so the calories are
`0.035 * 75 * 60 = 157.5`. -/
theorem claim_C3_witness :
    (Training.sportsWalking 9000 1 75 180).get_spent_calories = some 157.5 := by
  have h := claim_C3.1 9000 1 75 180 (by norm_num) (by norm_num)
  rw [h]; norm_num [floorDivQ]

/-- Claim C4: for the driver sample input `("SWM", [720, 1, 80, 25, 40])`, the
dispatched Swimming record reports mean speed `(25 * 40 / 1000) / 1 = 1` km/h
and spent calories `(1 + 1.1) * 2 * 80 = 336`; in general Swimming's mean
speed is `(poolLength * poolLapCount / 1000) / duration` and its calories are
`(meanSpeed + 1.1) * 2 * weight`. -/
theorem claim_C4 :
    (read_package "SWM" [720, 1, 80, 25, 40]).1 = some (.swimming 720 1 80 25 40)
    ∧ (Training.swimming 720 1 80 25 40).get_mean_speed = some 1
    ∧ (Training.swimming 720 1 80 25 40).get_spent_calories = some 336
    ∧ (∀ a d w lp cp : ℚ, d ≠ 0 →
        (Training.swimming a d w lp cp).get_mean_speed = some ((lp * cp / 1000) / d)
        ∧ (Training.swimming a d w lp cp).get_spent_calories
            = some (((lp * cp / 1000) / d + 1.1) * 2 * w)) := by
  refine ⟨rfl, ?_, ?_, ?_⟩
  · norm_num [Training.get_mean_speed, Training.get_mean_speed_withStep,
      Training.LEN_STEP, M_IN_KM]
  · norm_num [Training.get_spent_calories, Training.get_spent_calories_withStep,
      Training.get_mean_speed_withStep, Training.LEN_STEP, M_IN_KM,
      coeff_calorie_1, coeff_calorie_2]
  · intro a d w lp cp hd
    constructor
    · simp [Training.get_mean_speed, Training.get_mean_speed_withStep,
        Training.LEN_STEP, M_IN_KM, hd]
    · simp [Training.get_spent_calories, Training.get_spent_calories_withStep,
        Training.get_mean_speed_withStep, Training.LEN_STEP, M_IN_KM,
        coeff_calorie_1, coeff_calorie_2, hd]

/-- Witness for claim C4 (general part) at the driver sample Swimming
record. -/
theorem claim_C4_witness :
    (Training.swimming 720 1 80 25 40).get_mean_speed = some ((25 * 40 / 1000) / 1)
    ∧ (Training.swimming 720 1 80 25 40).get_spent_calories
        = some (((25 * 40 / 1000) / 1 + 1.1) * 2 * 80) :=
  claim_C4.2.2.2 720 1 80 25 40 (by norm_num)

/-- Claim C5: `read_package` prints `Unknown training type` and returns no
record on an unrecognized code; prints `Unknown training data` and returns no
record on a recognized code whose field list does not match the constructor
arity (3 for RUN, 4 for WLK, 5 for SWM); and on a matching arity constructs
the variant with the fields assigned positionally in order. -/
theorem claim_C5 :
    (∀ (wt : String) (data : List ℚ), wt ≠ "SWM" → wt ≠ "RUN" → wt ≠ "WLK" →
        read_package wt data = (none, some "Unknown training type"))
    ∧ (∀ data : List ℚ, data.length ≠ 5 →
        read_package "SWM" data = (none, some "Unknown training data"))
    ∧ (∀ data : List ℚ, data.length ≠ 3 →
        read_package "RUN" data = (none, some "Unknown training data"))
    ∧ (∀ data : List ℚ, data.length ≠ 4 →
        read_package "WLK" data = (none, some "Unknown training data"))
    ∧ (∀ a d w : ℚ, read_package "RUN" [a, d, w] = (some (.running a d w), none))
    ∧ (∀ a d w h : ℚ, read_package "WLK" [a, d, w, h] = (some (.sportsWalking a d w h), none))
    ∧ (∀ a d w lp cp : ℚ,
        read_package "SWM" [a, d, w, lp, cp] = (some (.swimming a d w lp cp), none)) := by
  refine ⟨?_, ?_, ?_, ?_, fun a d w => rfl, fun a d w h => rfl, fun a d w lp cp => rfl⟩
  · intro wt data h1 h2 h3
    simp [read_package, h1, h2, h3]
  · intro data h
    rcases data with _ | ⟨a, _ | ⟨b, _ | ⟨c, _ | ⟨e, _ | ⟨f, _ | ⟨g, rest⟩⟩⟩⟩⟩⟩ <;>
      simp_all [read_package]
  · intro data h
    rcases data with _ | ⟨a, _ | ⟨b, _ | ⟨c, _ | ⟨e, rest⟩⟩⟩⟩ <;>
      simp_all [read_package]
  · intro data h
    rcases data with _ | ⟨a, _ | ⟨b, _ | ⟨c, _ | ⟨e, _ | ⟨f, rest⟩⟩⟩⟩⟩ <;>
      simp_all [read_package]

/-- Witness for claim C5: an unknown code and a RUN package with only two
fields. -/
theorem claim_C5_witness :
    read_package "XYZ" [1, 2, 3] = (none, some "Unknown training type")
    ∧ read_package "RUN" [1, 2] = (none, some "Unknown training data") :=
  ⟨claim_C5.1 "XYZ" [1, 2, 3] (by decide) (by decide) (by decide),
   claim_C5.2.2.1 [1, 2] (by decide)⟩

/-- Claim C6 (divergence witness): for a package entry with an unrecognized
code, the driver loop emits the diagnostic but then passes the absent record
to `main` unconditionally, which dereferences it and crashes with
`AttributeError` — the driver has no absence check, contrary to the
specification's requirement that it skip the entry. -/
theorem claim_C6 :
    process_entry "XYZ" [1, 2, 3]
      = (some "Unknown training type", Except.error "AttributeError") := rfl

/-- Claim C7: for every record whose metrics are defined, the printed summary
line is exactly the template
`Тип тренировки: NAME; Длительность: D ч.; Дистанция: DIST км; Ср. скорость:
SPEED км/ч; Потрачено ккал: CAL.` with NAME the variant's class name
(Running, SportsWalking, Swimming) and every numeric value rendered by
`formatFixed3`, which always produces exactly 3 digits after the decimal
point (e.g. 1 renders as `1.000`). -/
theorem claim_C7 :
    (∀ (t : Training) (s c : ℚ),
        t.get_mean_speed = some s → t.get_spent_calories = some c →
        main (some t) = Except.ok
          ("Тип тренировки: " ++ t.str ++ "; Длительность: " ++ formatFixed3 t.duration
            ++ " ч.; Дистанция: " ++ formatFixed3 t.get_distance ++ " км; Ср. скорость: "
            ++ formatFixed3 s ++ " км/ч; Потрачено ккал: " ++ formatFixed3 c ++ "."))
    ∧ (∀ a d w : ℚ, (Training.running a d w).str = "Running")
    ∧ (∀ a d w h : ℚ, (Training.sportsWalking a d w h).str = "SportsWalking")
    ∧ (∀ a d w lp cp : ℚ, (Training.swimming a d w lp cp).str = "Swimming")
    ∧ (∀ q : ℚ, decimalsAfterPoint (formatFixed3 q) = 3)
    ∧ formatFixed3 1 = "1.000" := by
  refine ⟨?_, fun a d w => rfl, fun a d w h => rfl, fun a d w lp cp => rfl, ?_, ?_⟩
  · intro t s c hs hc
    have hs2 : Training.get_mean_speed_withStep t.LEN_STEP t = some s := hs
    have hc2 : Training.get_spent_calories_withStep t.LEN_STEP t = some c := hc
    simp [main, Training.show_training_info, Training.show_training_info_withStep,
      hs2, hc2, get_message_template, Training.get_distance]
  · intro q
    unfold formatFixed3 decimalsAfterPoint
    have hne : ∀ d : ℕ, (digitChar d != '.') = true := by
      intro d; simp [bne_iff_ne, digitChar_ne_dot]
    simp [String.data_append, pad3, List.takeWhile_cons, hne]
  · simp only [formatFixed3]
    norm_num [round_eq]
    decide

/-- Witness for claim C7 at the driver sample Running record: the exact
printed line. -/
theorem claim_C7_witness :
    main (some (Training.running 15000 1 75)) = Except.ok
      "Тип тренировки: Running; Длительность: 1.000 ч.; Дистанция: 9.750 км; Ср. скорость: 9.750 км/ч; Потрачено ккал: 699.750." := by
  have hs : (Training.running 15000 1 75).get_mean_speed = some 9.75 := by
    norm_num [Training.get_mean_speed, Training.get_mean_speed_withStep,
      Training.get_distance_withStep, Training.LEN_STEP, Training.action,
      M_IN_KM, base_LEN_STEP]
  have hc : (Training.running 15000 1 75).get_spent_calories = some 699.75 := by
    norm_num [Training.get_spent_calories, Training.get_spent_calories_withStep,
      Training.get_mean_speed_withStep, Training.get_distance_withStep,
      Training.LEN_STEP, Training.action, M_IN_KM, base_LEN_STEP,
      running_calories_multiplier, running_calories_diminution, hour_min_change]
  have h := claim_C7.1 (Training.running 15000 1 75) 9.75 699.75 hs hc
  rw [h]
  have e0 : (Training.running 15000 1 75).str = "Running" := rfl
  have e1 : (Training.running 15000 1 75).duration = 1 := rfl
  have e2 : (Training.running 15000 1 75).get_distance = 9.75 := by
    norm_num [Training.get_distance, Training.get_distance_withStep,
      Training.LEN_STEP, Training.action, M_IN_KM, base_LEN_STEP]
  rw [e0, e1, e2]
  have g1 : formatFixed3 (1 : ℚ) = "1.000" := by
    simp only [formatFixed3]; norm_num [round_eq]; decide
  have g2 : formatFixed3 (9.75 : ℚ) = "9.750" := by
    simp only [formatFixed3]; norm_num [round_eq]; decide
  have g3 : formatFixed3 (699.75 : ℚ) = "699.750" := by
    simp only [formatFixed3]; norm_num [round_eq]; decide
  rw [g1, g2, g3]
  rfl

/-- Claim C8: two Swimming records that differ only in the `action` field
have equal `get_mean_speed` and equal `get_spent_calories` — swimming's
reported speed and calories do not depend on `action`. -/
theorem claim_C8 (a₁ a₂ d w lp cp : ℚ) :
    (Training.swimming a₁ d w lp cp).get_mean_speed
      = (Training.swimming a₂ d w lp cp).get_mean_speed
    ∧ (Training.swimming a₁ d w lp cp).get_spent_calories
      = (Training.swimming a₂ d w lp cp).get_spent_calories :=
  ⟨rfl, rfl⟩

/-- Claim C9 (counterexample): the summary of a Swimming record DOES depend
on the value of `LEN_STEP` — with the sample record, instantiating the class
attribute at Swimming's value 1.38 and at the base value 0.65 yields
different summaries (the inherited printed distance is
`action * LEN_STEP / 1000`). -/
theorem claim_C9_counterexample :
    Training.show_training_info_withStep swimming_LEN_STEP (.swimming 720 1 80 25 40)
      ≠ Training.show_training_info_withStep base_LEN_STEP (.swimming 720 1 80 25 40) := by
  norm_num [Training.show_training_info_withStep, Training.get_mean_speed_withStep,
    Training.get_spent_calories_withStep, Training.get_distance_withStep,
    Training.action, Training.duration, Training.str, swimming_LEN_STEP,
    base_LEN_STEP, M_IN_KM, coeff_calorie_1, coeff_calorie_2, InfoMessage.mk.injEq]

/-- Claim C9 (amended): Swimming's mean speed and spent calories are
independent of the `LEN_STEP` value, but its printed distance is not:
Swimming inherits the step-length distance formula, so the summary's
distance is `action * 1.38 / 1000` and does depend on `LEN_STEP = 1.38`. -/
theorem claim_C9 :
    (∀ step₁ step₂ a d w lp cp : ℚ,
        Training.get_mean_speed_withStep step₁ (.swimming a d w lp cp)
          = Training.get_mean_speed_withStep step₂ (.swimming a d w lp cp)
        ∧ Training.get_spent_calories_withStep step₁ (.swimming a d w lp cp)
          = Training.get_spent_calories_withStep step₂ (.swimming a d w lp cp))
    ∧ (∀ a d w lp cp : ℚ,
        (Training.swimming a d w lp cp).get_distance = a * 1.38 / 1000) :=
  ⟨fun _ _ _ _ _ _ _ => ⟨rfl, rfl⟩, fun _ _ _ _ _ => rfl⟩

/-- Claim C10: `read_package` validates only the code and the field arity,
never the field values: any recognized code with matching arity yields a
constructed record for arbitrary field values; in particular the record
`Running(15000, 0, 75)` with zero duration is constructed, and
`get_mean_speed` on it divides by zero (modelled: returns `none`, Python
raises `ZeroDivisionError`). -/
theorem claim_C10 :
    (∀ a d w : ℚ, (read_package "RUN" [a, d, w]).1 = some (.running a d w))
    ∧ (∀ a d w h : ℚ, (read_package "WLK" [a, d, w, h]).1 = some (.sportsWalking a d w h))
    ∧ (∀ a d w lp cp : ℚ,
        (read_package "SWM" [a, d, w, lp, cp]).1 = some (.swimming a d w lp cp))
    ∧ (read_package "RUN" [15000, 0, 75]).1 = some (.running 15000 0 75)
    ∧ (∀ a w : ℚ, (Training.running a 0 w).get_mean_speed = none) := by
  refine ⟨fun a d w => rfl, fun a d w h => rfl, fun a d w lp cp => rfl, rfl, fun a w => ?_⟩
  simp [Training.get_mean_speed, Training.get_mean_speed_withStep]

end FitnessTracker
